import Mathlib

/-!
Verification development for the MT3620 ultrasonic parking-bay application
(src/main.c).  The C program is shallowly embedded: machine integers become
Int/Nat, the float distance value becomes Rat (the sentinel values -1 and 400
and all threshold comparisons are exact in Rat), and the interactions with the
GPIO driver, the monotonic clock, the timer file descriptor, the LED driver
and the IoT Hub client are passed in as explicit environment values.
-/

/-- Embedding of struct timespec: seconds and nanoseconds as mathematical
integers (tv_sec and tv_nsec are machine integers in C; no overflow occurs in
any quantity this development manipulates). -/
structure Timespec where
  tv_sec : Int
  tv_nsec : Int
deriving DecidableEq, Repr

/-- A timespec is normalized when its nanosecond field lies in [0, 1e9). -/
def Timespec.normalized (t : Timespec) : Prop :=
  0 ≤ t.tv_nsec ∧ t.tv_nsec < 1000000000

instance (t : Timespec) : Decidable t.normalized := by
  unfold Timespec.normalized; infer_instance

/-- Total nanosecond count of a timespec. -/
def Timespec.toNanos (t : Timespec) : Int :=
  t.tv_sec * 1000000000 + t.tv_nsec

/-- Embedding of TimerUtility_TimerSubtract from src/main.c lines 61-70:
componentwise subtraction followed by a single borrow when the nanosecond
difference is negative. -/
def TimerUtility_TimerSubtract (s t : Timespec) : Timespec :=
  let sec := s.tv_sec - t.tv_sec
  let nsec := s.tv_nsec - t.tv_nsec
  if nsec < 0 then ⟨sec - 1, nsec + 1000000000⟩ else ⟨sec, nsec⟩

/-- Modelled from the spec: TimerUtility_TimerAdd is declared in
timer_utility.h and called from main.c, but its definition is not under src/.
Spec section 4.1: add(a, b) with the sub-second component re-normalized into
[0, 1e9) by carrying a whole second. -/
def TimerUtility_TimerAdd (s t : Timespec) : Timespec :=
  let sec := s.tv_sec + t.tv_sec
  let nsec := s.tv_nsec + t.tv_nsec
  if 1000000000 ≤ nsec then ⟨sec + 1, nsec - 1000000000⟩ else ⟨sec, nsec⟩

/-- Modelled from the spec: TimerUtility_TimerCompareGreater is declared in
timer_utility.h and called from main.c, but its definition is not under src/.
Spec section 4.1 gives compareGreater(a, b) -> bool, used as the test that the
current monotonic time exceeds the stored retry deadline: the strict
lexicographic order on (seconds, sub-seconds). -/
def TimerUtility_TimerCompareGreater (s t : Timespec) : Bool :=
  (t.tv_sec < s.tv_sec) || (s.tv_sec == t.tv_sec && t.tv_nsec < s.tv_nsec)

/-!
The ultrasonic measurement, GetUltrasonicReading (src/main.c lines 72-132).
The GPIO driver and the monotonic clock are an explicit environment: whether
each of the two pin acquisitions succeeds, the pin level observed by the i-th
GPIO_GetValue call of the polling loop (true = GPIO_Value_High), and the
timespec returned by the i-th possible clock_gettime call.
-/

/-- Environment of one GetUltrasonicReading call. -/
structure GpioEnv where
  openOutputOk : Bool
  openInputOk : Bool
  reads : Nat → Bool
  clock : Nat → Timespec

/-- The polling loop of GetUltrasonicReading (src/main.c lines 98-118), in
terms of the iteration indices at which the timestamps are taken: scan the
reads from index i with the given fuel; the optional argument records the
index of the first high reading (the tsStart assignment); on the first
subsequent low reading return the pair (start index, end index) (the tsEnd
assignment and break).  Returns none when the loop exhausts its iterations
without the break, in which case tsEnd keeps its initial value (0, 0). -/
def pollIdx (reads : Nat → Bool) : Nat → Nat → Option Nat → Option (Nat × Nat)
  | _, 0, _ => none
  | i, fuel + 1, triggered =>
    if reads i then
      match triggered with
      | some s => pollIdx reads (i + 1) fuel (some s)
      | none => pollIdx reads (i + 1) fuel (some i)
    else
      match triggered with
      | some s => some (s, i)
      | none => pollIdx reads (i + 1) fuel none

/-- The polling loop run for the 10000 iterations of the C for loop. -/
def pollResult (env : GpioEnv) : Option (Nat × Nat) :=
  pollIdx env.reads 0 10000 none

/-- Embedding of GetUltrasonicReading (src/main.c lines 72-132).  Returns -1
when either pin acquisition fails; otherwise runs the polling loop; when tsEnd
is still (0, 0) returns 400; otherwise returns elapsed.tv_nsec / 58000.0 with
elapsed = TimerUtility_TimerSubtract tsEnd tsStart.  The C float result is
embedded as Rat. -/
def GetUltrasonicReading (env : GpioEnv) : Rat :=
  if !env.openOutputOk then -1
  else if !env.openInputOk then -1
  else
    match pollResult env with
    | none => 400
    | some (s, e) =>
      let tsStart := env.clock s
      let tsEnd := env.clock e
      if tsEnd = ⟨0, 0⟩ then 400
      else ((TimerUtility_TimerSubtract tsEnd tsStart).tv_nsec : Rat) / 58000

/-!
Classification, debounced reporting and the timer event handler
(src/main.c lines 134-178).
-/

/-- The LED colors used by main.c (LedBlinkUtility_Colors). -/
inductive Colors where
  | Red
  | Green
  | Yellow
  | Off
deriving DecidableEq, Repr

/-- Outcome of one ReportStatusToIotHub call: a twin report sent to the hub,
the not-connected warning (report dropped), or nothing (value unchanged). -/
inductive ReportOutcome where
  | sent (v : Bool)
  | droppedWarning
  | skipped
deriving DecidableEq, Repr

/-- Embedding of ReportStatusToIotHub (src/main.c lines 136-150): when the
stored occupiedState differs from the argument, store the argument and either
send the twin report (connected) or drop it with a warning (not connected).
Returns the new occupiedState and the outcome. -/
def ReportStatusToIotHub (connected occupiedState occupied : Bool) :
    Bool × ReportOutcome :=
  if occupiedState ≠ occupied then
    (occupied,
      if connected then ReportOutcome.sent occupied else ReportOutcome.droppedWarning)
  else (occupiedState, ReportOutcome.skipped)

/-- The threshold classification of the timer event handler
(src/main.c lines 161-175): the occupancy boolean passed to
ReportStatusToIotHub and the color given to the traffic LED in each branch. -/
def classifyTier (cms : Rat) : Bool × Colors :=
  if cms > 8 then (false, Colors.Green)
  else if cms > 2 then (true, Colors.Yellow)
  else (true, Colors.Red)

/-- Result of one UltrasonicTimerEventHandler call. -/
structure HandlerResult where
  occupiedState : Bool
  terminationRequired : Bool
  outcome : ReportOutcome
  ledTraffic : Option Colors
deriving DecidableEq, Repr

/-- Embedding of UltrasonicTimerEventHandler (src/main.c lines 152-178),
with the distance sample passed in (the GetUltrasonicReading result).
consumeOk is whether ConsumeTimerFdEvent returned 0; on failure the handler
sets terminationRequired and returns early.  trafficSetOk is the success of
the LedBlinkUtility_SetLed call on the traffic LED; the source discards that
return value, so the parameter does not influence the result. -/
def UltrasonicTimerEventHandler (consumeOk trafficSetOk connected : Bool)
    (occupiedState : Bool) (cms : Rat) : HandlerResult :=
  if !consumeOk then ⟨occupiedState, true, ReportOutcome.skipped, none⟩
  else
    let oc := classifyTier cms
    let r := ReportStatusToIotHub connected occupiedState oc.1
    ⟨r.1, false, r.2, some oc.2⟩

/-- Run of the timer event handler over a list of distance samples, one per
timer tick, with the timer-event consumption and the LED driver succeeding and
the connectivity flag held fixed.  Returns the per-tick report outcomes and
the traffic LED color sequence. -/
def runHandlerSeq (connected : Bool) :
    Bool → List Rat → List ReportOutcome × List Colors
  | _, [] => ([], [])
  | occupiedState, cms :: rest =>
    let r := UltrasonicTimerEventHandler true true connected occupiedState cms
    let t := runHandlerSeq connected r.occupiedState rest
    (r.outcome :: t.1, r.ledTraffic.toList ++ t.2)

/-- A GPIO environment in which both acquisitions succeed, the echo pin is
high on the first poll iteration and low on the second, and the round-trip
pulse width measured between the two clock readings is exactly 23,200,000 ns,
so that the computed distance is exactly 400 cm. -/
def envEcho400 : GpioEnv where
  openOutputOk := true
  openInputOk := true
  reads := fun i => i == 0
  clock := fun i => if i = 0 then ⟨5, 0⟩ else ⟨5, 23200000⟩

/-- The values actually sent to the hub, in order, from a list of outcomes. -/
def sentReports (outs : List ReportOutcome) : List Bool :=
  outs.filterMap fun o =>
    match o with
    | ReportOutcome.sent v => some v
    | _ => none

/-- Number of value changes of the stored occupancy flag caused by a list of
computed occupancy values, starting from the given stored value. -/
def transitions : Bool → List Bool → Nat
  | _, [] => 0
  | st, o :: rest => (if o ≠ st then 1 else 0) + transitions o rest

/-!
Startup (InitPeripheralsAndHandlers, src/main.c lines 193-220) and the
orchestrator loop body (main, src/main.c lines 255-287).
-/

/-- Embedding of InitPeripheralsAndHandlers (src/main.c lines 193-220) as a
function of the results of its three fallible collaborator calls: the value
returned by CreateEpollFd, whether AzureIoT_Initialize succeeded, and the
value returned by CreateTimerFdAndAddToEpoll.  Returns the function result
together with the final values of the epollFd and usTimerFd globals (both
initialized to -1).  The source never tests the timer file descriptor. -/
def InitPeripheralsAndHandlers (epollFdRet : Int) (azureInitOk : Bool)
    (usTimerFdRet : Int) : Int × Int × Int :=
  if epollFdRet < 0 then (-1, epollFdRet, -1)
  else if !azureInitOk then (-1, epollFdRet, -1)
  else (0, epollFdRet, usTimerFdRet)

/-- The terminationRequired flag right after the init call in main
(src/main.c lines 246-248): set when InitPeripheralsAndHandlers returned
nonzero, in which case the while loop body never executes. -/
def mainInitTermination (initRet : Int) : Bool :=
  initRet != 0

/-- The fixed connection retry period of main (src/main.c line 240). -/
def iothubRetryPeriod : Timespec := ⟨1, 0⟩

/-- External inputs of one iteration of the main while loop: whether
WaitForEventAndCallHandler returned 0, whether the network LED SetLed call
returned 0, the two clock_gettime readings, and the AzureIoT_SetupClient
result (consulted only when the attempt is made). -/
structure MainEnv where
  waitOk : Bool
  setNetworkLedOk : Bool
  now1 : Timespec
  setupResult : Bool
  now2 : Timespec
deriving DecidableEq, Repr

/-- The mutable state of main consulted by the loop body: the global
terminationRequired and connectedToIoTHub flags and the locals
iothub_connected and next_iothub_connect. -/
structure MainState where
  terminationRequired : Bool
  connectedToIoTHub : Bool
  iothubConnected : Bool
  nextIothubConnect : Timespec
deriving DecidableEq, Repr

/-- Observable collaborator calls of one loop iteration. -/
inductive MainAction where
  | setNetworkLed (c : Colors)
  | setupClient
  | doPeriodicTasks
deriving DecidableEq, Repr

/-- Embedding of the body of the main while loop (src/main.c lines 255-287):
on wait failure set terminationRequired and continue the body; set the
network LED from connectedToIoTHub, breaking out of the loop on failure
(result none); when now exceeds next_iothub_connect, call
AzureIoT_SetupClient and reset the deadline to the second clock reading plus
the retry period; when iothub_connected, call AzureIoT_DoPeriodicTasks.
Returns the state after the iteration (none when the loop was broken) and the
list of collaborator calls made. -/
def mainLoopIter (env : MainEnv) (st : MainState) :
    Option MainState × List MainAction :=
  let st1 := if !env.waitOk then { st with terminationRequired := true } else st
  let color := if st1.connectedToIoTHub then Colors.Green else Colors.Off
  if !env.setNetworkLedOk then (none, [MainAction.setNetworkLed color])
  else
    let fired := TimerUtility_TimerCompareGreater env.now1 st1.nextIothubConnect
    let st2 :=
      if fired then
        { st1 with
            iothubConnected := env.setupResult
            nextIothubConnect := TimerUtility_TimerAdd env.now2 iothubRetryPeriod }
      else st1
    let acts := [MainAction.setNetworkLed color]
      ++ (if fired then [MainAction.setupClient] else [])
      ++ (if st2.iothubConnected then [MainAction.doPeriodicTasks] else [])
    (some st2, acts)

/-!
Helper lemmas: time arithmetic, the exact-division facts for the distance
formula, the polling loop, and the debounced reporter.
-/

/-- Subtracting one normalized timespec from another yields a normalized
result, and adding the subtrahend back recovers the minuend exactly. -/
theorem timer_sub_add_round (a b : Timespec) (ha : a.normalized) (hb : b.normalized) :
    (TimerUtility_TimerSubtract a b).normalized ∧
    TimerUtility_TimerAdd (TimerUtility_TimerSubtract a b) b = a := by
  obtain ⟨as, an⟩ := a
  obtain ⟨bs, bn⟩ := b
  obtain ⟨ha0, ha1⟩ := ha
  obtain ⟨hb0, hb1⟩ := hb
  unfold TimerUtility_TimerSubtract TimerUtility_TimerAdd
  simp only []
  split_ifs <;> simp_all [Timespec.normalized, Timespec.mk.injEq] <;> omega

/-- The distance formula hits 400 exactly when the elapsed nanosecond count is
exactly 23,200,000. -/
theorem rat_div_58000_eq_400 (n : Int) : ((n : Rat) / 58000 = 400) ↔ n = 23200000 := by
  rw [div_eq_iff (by norm_num : (58000 : Rat) ≠ 0)]
  constructor
  · intro h
    norm_num at h
    exact_mod_cast h
  · intro h
    subst h
    norm_num

/-- The distance formula never hits -1 for a nonnegative elapsed count. -/
theorem rat_div_58000_ne_neg_one (n : Int) (hn : 0 ≤ n) : ((n : Rat) / 58000) ≠ -1 := by
  intro h
  rw [div_eq_iff (by norm_num : (58000 : Rat) ≠ 0)] at h
  norm_num at h
  have : n = -58000 := by exact_mod_cast h
  omega

/-- Evaluation of GetUltrasonicReading when both acquisitions succeed. -/
theorem getReading_ok (reads : Nat → Bool) (clock : Nat → Timespec) :
    GetUltrasonicReading ⟨true, true, reads, clock⟩ =
      match pollIdx reads 0 10000 none with
      | none => 400
      | some (s, e) =>
        if clock e = ⟨0, 0⟩ then 400
        else ((TimerUtility_TimerSubtract (clock e) (clock s)).tv_nsec : Rat) / 58000 := rfl

/-- A pin that never reads high never produces an edge pair. -/
theorem pollIdx_none_of_false (reads : Nat → Bool) (h : ∀ j, reads j = false) :
    ∀ fuel i, pollIdx reads i fuel none = none := by
  intro fuel
  induction fuel with
  | zero => intro i; rfl
  | succ f ih =>
    intro i
    simp [pollIdx, h i]
    exact ih (i + 1)

/-- A pin that reads high on the first iteration and low on the second yields
the edge pair (0, 1) under any iteration budget of at least two. -/
theorem pollIdx_echo (reads : Nat → Bool) (h0 : reads 0 = true)
    (h1 : reads 1 = false) (fuel : Nat) :
    pollIdx reads 0 (fuel + 2) none = some (0, 1) := by
  show pollIdx reads 0 (fuel + 1 + 1) none = some (0, 1)
  simp [pollIdx, h0, h1]

/-- ReportStatusToIotHub always leaves the stored flag equal to its
argument. -/
theorem report_fst : ∀ conn st occ : Bool, (ReportStatusToIotHub conn st occ).1 = occ := by
  decide

/-- Report outcome while connected: a twin report exactly on a change. -/
theorem report_snd_true : ∀ st occ : Bool,
    (ReportStatusToIotHub true st occ).2 =
      if st ≠ occ then ReportOutcome.sent occ else ReportOutcome.skipped := by
  decide

theorem sentReports_cons_sent (v : Bool) (l : List ReportOutcome) :
    sentReports (ReportOutcome.sent v :: l) = v :: sentReports l := rfl

theorem sentReports_cons_skipped (l : List ReportOutcome) :
    sentReports (ReportOutcome.skipped :: l) = sentReports l := rfl

/-- One handler tick with the timer event consumed and the LED driver
succeeding: classify, report, light. -/
theorem handler_eval (conn st : Bool) (c : Rat) :
    UltrasonicTimerEventHandler true true conn st c =
      ⟨(classifyTier c).1, false, (ReportStatusToIotHub conn st (classifyTier c).1).2,
        some (classifyTier c).2⟩ := by
  unfold UltrasonicTimerEventHandler
  simp only [Bool.not_true, Bool.false_eq_true, if_false, report_fst]

theorem runHandlerSeq_cons (conn st : Bool) (c : Rat) (rest : List Rat) :
    runHandlerSeq conn st (c :: rest) =
      ((ReportStatusToIotHub conn st (classifyTier c).1).2
          :: (runHandlerSeq conn (classifyTier c).1 rest).1,
        (classifyTier c).2 :: (runHandlerSeq conn (classifyTier c).1 rest).2) := by
  simp [runHandlerSeq, handler_eval]

/-- While connected, the number of reports sent over a run equals the number
of value changes of the stored occupancy flag. -/
theorem sent_eq_transitions (st : Bool) (samples : List Rat) :
    (sentReports (runHandlerSeq true st samples).1).length
      = transitions st (samples.map fun s => (classifyTier s).1) := by
  induction samples generalizing st with
  | nil => rfl
  | cons c rest ih =>
    rw [runHandlerSeq_cons, report_snd_true]
    simp only [List.map_cons, transitions]
    by_cases h : st = (classifyTier c).1
    · rw [if_neg (by simpa using h), sentReports_cons_skipped,
        if_neg (by simpa using h.symm)]
      simpa using ih (classifyTier c).1
    · rw [if_pos h, sentReports_cons_sent,
        if_pos (by simpa using Ne.symm h)]
      simp only [List.length_cons]
      rw [ih (classifyTier c).1]
      omega

/-!
Claim theorems.
-/

/-- Claim C1 (counterexample): on the scripted run [10, 10, 5, 5, 1, 10] from
process start (occupiedState false) with the client connected, the sequence of
reports actually sent is not [false, true, false]: the first sample computes
occupancy false, which equals the initial stored value and is debounced, so
only two reports go out. -/
theorem scripted_run_reports_not_three :
    sentReports (runHandlerSeq true false [10, 10, 5, 5, 1, 10]).1 ≠ [false, true, false] := by
  decide

/-- Claim C1 (amended): on the scripted run [10, 10, 5, 5, 1, 10] from process
start with the client connected, exactly two reports are emitted, with values
[true, false] in that order, and the traffic indicator is set to the color
sequence [Green, Green, Yellow, Yellow, Red, Green]. -/
theorem scripted_run_behavior :
    sentReports (runHandlerSeq true false [10, 10, 5, 5, 1, 10]).1 = [true, false]
    ∧ (runHandlerSeq true false [10, 10, 5, 5, 1, 10]).2 =
        [Colors.Green, Colors.Green, Colors.Yellow, Colors.Yellow, Colors.Red, Colors.Green] := by
  decide

/-- Claim C2: a report is sent only when the computed occupancy differs from
the stored value and the client is connected; when it differs but the client
is disconnected the report is dropped with a warning; the stored value always
ends up equal to the computed occupancy; and over any sample sequence run
while connected, the number of sent reports equals the number of
occupancy-value transitions, not the sample count. -/
theorem debounce_contract :
    (∀ conn st occ v : Bool, (ReportStatusToIotHub conn st occ).2 = ReportOutcome.sent v →
      st ≠ occ ∧ conn = true ∧ v = occ)
    ∧ (∀ conn st occ : Bool, conn = false → st ≠ occ →
        (ReportStatusToIotHub conn st occ).2 = ReportOutcome.droppedWarning)
    ∧ (∀ conn st occ : Bool, (ReportStatusToIotHub conn st occ).1 = occ)
    ∧ (∀ (st : Bool) (samples : List Rat),
        (sentReports (runHandlerSeq true st samples).1).length
          = transitions st (samples.map fun s => (classifyTier s).1)) :=
  ⟨by decide, by decide, report_fst, sent_eq_transitions⟩

/-- Witness for debounce_contract: a changed value while disconnected is
dropped with the warning. -/
theorem debounce_contract_witness :
    (ReportStatusToIotHub false false true).2 = ReportOutcome.droppedWarning :=
  debounce_contract.2.1 false false true rfl (by decide)

/-- Claim C3 (amended): for a monotonic clock with normalized sub-seconds that
is never exactly (0, 0), the measurement returns the unavailable sentinel -1
exactly when a GPIO acquisition fails, in which case the result does not
depend on the polling inputs at all; when both acquisitions succeed, it
returns 400 exactly when either no falling edge is observed within the
10,000-iteration ceiling or a falling edge is observed with elapsed
sub-second time exactly 23,200,000 ns (a real echo at exactly 400 cm); and
the two sentinels are distinct. -/
theorem sensor_sentinels (env : GpioEnv)
    (hns : ∀ i, (env.clock i).normalized)
    (hnz : ∀ i, env.clock i ≠ ⟨0, 0⟩) :
    (GetUltrasonicReading env = -1 ↔
      (env.openOutputOk = false ∨ env.openInputOk = false))
    ∧ (env.openOutputOk = true → env.openInputOk = true →
        (GetUltrasonicReading env = 400 ↔
          (pollResult env = none
            ∨ ∃ s e, pollResult env = some (s, e) ∧
                (TimerUtility_TimerSubtract (env.clock e) (env.clock s)).tv_nsec
                  = 23200000)))
    ∧ ((env.openOutputOk = false ∨ env.openInputOk = false) →
        ∀ r c, GetUltrasonicReading ⟨env.openOutputOk, env.openInputOk, r, c⟩ = -1)
    ∧ ((400 : Rat) ≠ -1) := by
  obtain ⟨oOk, iOk, reads, clock⟩ := env
  simp only at hns hnz
  cases oOk with
  | false =>
    refine ⟨?_, ?_, ?_, by norm_num⟩
    · simp [GetUltrasonicReading]
    · intro h
      exact absurd h (by simp)
    · intro _ r c
      simp [GetUltrasonicReading]
  | true =>
    cases iOk with
    | false =>
      refine ⟨?_, ?_, ?_, by norm_num⟩
      · simp [GetUltrasonicReading]
      · intro _ h
        exact absurd h (by simp)
      · intro _ r c
        simp [GetUltrasonicReading]
    | true =>
      have hpr : pollResult ⟨true, true, reads, clock⟩ = pollIdx reads 0 10000 none := rfl
      refine ⟨?_, ?_, ?_, by norm_num⟩
      · refine iff_of_false ?_ (by simp)
        rw [getReading_ok]
        cases hp : pollIdx reads 0 10000 none with
        | none => norm_num
        | some p =>
          obtain ⟨s, e⟩ := p
          simp only []
          rw [if_neg (hnz e)]
          exact rat_div_58000_ne_neg_one _ (timer_sub_add_round _ _ (hns e) (hns s)).1.1
      · intro _ _
        rw [getReading_ok, hpr]
        cases hp : pollIdx reads 0 10000 none with
        | none => simp
        | some p =>
          obtain ⟨s, e⟩ := p
          simp only [Option.some.injEq, reduceCtorEq, false_or]
          rw [if_neg (hnz e)]
          rw [rat_div_58000_eq_400]
          constructor
          · intro h
            exact ⟨s, e, rfl, h⟩
          · intro h
            obtain ⟨s', e', he, h⟩ := h
            simp only [Option.some.injEq, Prod.mk.injEq] at he
            obtain ⟨rfl, rfl⟩ := he
            exact h
      · intro h
        rcases h with h | h <;> simp at h

/-- Witness for sensor_sentinels: with the output acquisition failing the
reading is the unavailable sentinel. -/
theorem sensor_sentinels_witness :
    GetUltrasonicReading ⟨false, true, fun _ => false, fun _ => ⟨1, 0⟩⟩ = -1 :=
  (sensor_sentinels ⟨false, true, fun _ => false, fun _ => ⟨1, 0⟩⟩
    (fun _ => by show (Timespec.mk 1 0).normalized; decide)
    (fun _ => by show (Timespec.mk 1 0) ≠ ⟨0, 0⟩; decide)).1.mpr (Or.inl rfl)

/-- Claim C3 (counterexample): a genuine echo whose pulse width is exactly
23,200,000 ns makes the measurement return 400 even though a falling edge was
observed well within the polling ceiling, so a 400 return does not imply a
timeout. -/
theorem sensor_timeout_sentinel_ambiguous :
    GetUltrasonicReading envEcho400 = 400 ∧ pollResult envEcho400 = some (0, 1) := by
  have hp : pollIdx envEcho400.reads 0 10000 none = some (0, 1) := by
    have h : (10000 : Nat) = 9998 + 2 := rfl
    rw [h]
    exact pollIdx_echo envEcho400.reads rfl rfl 9998
  constructor
  · rw [show GetUltrasonicReading envEcho400 =
        GetUltrasonicReading ⟨true, true, envEcho400.reads, envEcho400.clock⟩ from rfl]
    rw [getReading_ok, hp]
    simp only []
    rw [if_neg (by decide)]
    norm_num [envEcho400, TimerUtility_TimerSubtract]
  · exact hp

/-- Claim C4: the classifier uses strict greater-than at the upper bounds:
exactly 8.0 is near (occupied, yellow), 8.01 is clear (free, green), exactly
2.0 is occupied (red); in general distance above 8 maps to (false, Green),
distance in (2, 8] to (true, Yellow) and distance at most 2 to (true, Red). -/
theorem threshold_boundaries :
    classifyTier 8 = (true, Colors.Yellow)
    ∧ classifyTier (801/100) = (false, Colors.Green)
    ∧ classifyTier 2 = (true, Colors.Red)
    ∧ (∀ d : Rat, d > 8 → classifyTier d = (false, Colors.Green))
    ∧ (∀ d : Rat, 2 < d → d ≤ 8 → classifyTier d = (true, Colors.Yellow))
    ∧ (∀ d : Rat, d ≤ 2 → classifyTier d = (true, Colors.Red)) := by
  refine ⟨by decide, ?_, by decide, ?_, ?_, ?_⟩
  · unfold classifyTier
    norm_num
  · intro d h
    unfold classifyTier
    rw [if_pos h]
  · intro d h1 h2
    unfold classifyTier
    rw [if_neg (by linarith), if_pos h1]
  · intro d h
    unfold classifyTier
    rw [if_neg (by linarith), if_neg (by linarith)]

/-- Witness for threshold_boundaries at distance 9. -/
theorem threshold_boundaries_witness : classifyTier 9 = (false, Colors.Green) :=
  threshold_boundaries.2.2.2.1 9 (by norm_num)

/-- Claim C5: in a loop iteration a connection attempt happens only when the
first clock reading exceeds the stored deadline; after an attempt the new
deadline is the post-attempt clock reading plus the 1-second retry period;
without an attempt the deadline is unchanged; and once a deadline has been set
from an attempt at time t, a later attempt with a normalized clock reading
requires strictly more than one full retry period past t. -/
theorem connection_retry_pacing (env : MainEnv) (st : MainState) :
    (MainAction.setupClient ∈ (mainLoopIter env st).2 →
      TimerUtility_TimerCompareGreater env.now1 st.nextIothubConnect = true)
    ∧ (∀ st', (mainLoopIter env st).1 = some st' →
        MainAction.setupClient ∈ (mainLoopIter env st).2 →
        st'.nextIothubConnect = TimerUtility_TimerAdd env.now2 iothubRetryPeriod)
    ∧ (∀ st', (mainLoopIter env st).1 = some st' →
        MainAction.setupClient ∉ (mainLoopIter env st).2 →
        st'.nextIothubConnect = st.nextIothubConnect)
    ∧ (∀ t now : Timespec, t.normalized → now.normalized →
        TimerUtility_TimerCompareGreater now (TimerUtility_TimerAdd t iothubRetryPeriod) = true →
        now.toNanos > t.toNanos + 1000000000) := by
  refine ⟨?_, ?_, ?_, ?_⟩
  · intro hmem
    unfold mainLoopIter at hmem
    split_ifs at hmem with h1 h2 h3 <;> simp_all [mainLoopIter]
  · intro st' hsome hmem
    unfold mainLoopIter at hsome hmem
    split_ifs at hsome hmem with h1 h2 h3 <;> simp_all <;> (subst hsome; rfl)
  · intro st' hsome hmem
    unfold mainLoopIter at hsome hmem
    split_ifs at hsome hmem with h1 h2 h3 <;> simp_all <;> (subst hsome; rfl)
  · intro t now ht hnow hgt
    obtain ⟨ts, tn⟩ := t
    obtain ⟨ns, nn⟩ := now
    obtain ⟨ht0, ht1⟩ := ht
    obtain ⟨hn0, hn1⟩ := hnow
    unfold TimerUtility_TimerAdd TimerUtility_TimerCompareGreater iothubRetryPeriod at hgt
    simp only [Timespec.normalized, Timespec.toNanos] at *
    split_ifs at hgt <;> simp_all <;> omega

/-- Witness for connection_retry_pacing: after an attempt fires at clock
reading (5, 0), the resulting state carries the deadline (5, 0) plus one
second. -/
theorem connection_retry_pacing_witness :
    (MainState.mk false false true (TimerUtility_TimerAdd ⟨5, 0⟩ iothubRetryPeriod)).nextIothubConnect
      = TimerUtility_TimerAdd (⟨5, 0⟩ : Timespec) iothubRetryPeriod :=
  (connection_retry_pacing ⟨true, true, ⟨5, 0⟩, true, ⟨5, 0⟩⟩ ⟨false, false, false, ⟨1, 0⟩⟩).2.1
    ⟨false, false, true, TimerUtility_TimerAdd ⟨5, 0⟩ iothubRetryPeriod⟩
    (by decide) (by decide)

/-- Claim C6 (amended): in every loop iteration that runs to completion (the
network-indicator update did not break the loop), AzureIoT_DoPeriodicTasks is
called exactly once when the iothub_connected flag holds after the iteration's
connection handling, and not at all otherwise. -/
theorem periodic_tasks_once_per_iteration (env : MainEnv) (st st' : MainState)
    (acts : List MainAction) (h : mainLoopIter env st = (some st', acts)) :
    acts.count MainAction.doPeriodicTasks = if st'.iothubConnected then 1 else 0 := by
  unfold mainLoopIter at h
  dsimp only at h
  split_ifs at h <;>
    (injection h with ha hb) <;>
    first
      | exact Option.noConfusion ha
      | (cases Option.some.inj ha
         cases hb
         simp_all [List.count_append, List.count_cons, List.count_nil])

/-- Witness for periodic_tasks_once_per_iteration on a concrete connected
iteration. -/
theorem periodic_tasks_once_witness :
    ([MainAction.setNetworkLed Colors.Off, MainAction.setupClient,
        MainAction.doPeriodicTasks].count MainAction.doPeriodicTasks)
      = if (MainState.mk false false true ⟨6, 0⟩).iothubConnected then 1 else 0 :=
  periodic_tasks_once_per_iteration ⟨true, true, ⟨5, 0⟩, true, ⟨5, 0⟩⟩
    ⟨false, false, false, ⟨1, 0⟩⟩ ⟨false, false, true, ⟨6, 0⟩⟩ _ (by decide)

/-- Claim C6 (counterexample): an iteration entered with iothub_connected true
in which the network-indicator update fails breaks out of the loop before the
periodic maintenance call, so maintenance is omitted while connected. -/
theorem periodic_tasks_omitted_on_led_failure :
    (mainLoopIter ⟨true, false, ⟨5, 0⟩, true, ⟨5, 0⟩⟩ ⟨false, true, true, ⟨1, 0⟩⟩).2.count
        MainAction.doPeriodicTasks = 0
    ∧ (MainState.mk false true true ⟨1, 0⟩).iothubConnected = true := by
  decide

/-- Claim C7: InitPeripheralsAndHandlers reports success (0) even when the
timer creation call fails (returns -1), so main does not take the shutdown
path; by contrast a wait-primitive (epoll) creation failure is correctly
reported as -1 and main's termination flag is set.  This evaluates the code at
the failing input of the code_bug finding. -/
theorem init_ignores_timer_failure :
    (InitPeripheralsAndHandlers 3 true (-1)).1 = 0
    ∧ mainInitTermination (InitPeripheralsAndHandlers 3 true (-1)).1 = false
    ∧ (InitPeripheralsAndHandlers 3 true (-1)).2.2 = -1
    ∧ (InitPeripheralsAndHandlers (-1) true 3).1 = -1
    ∧ mainInitTermination (InitPeripheralsAndHandlers (-1) true 3).1 = true := by
  decide

/-- Claim C8 (amended): a failure of the network-indicator set-color call in
the orchestrator loop is fatal: the iteration breaks out of the loop. -/
theorem network_led_failure_fatal (env : MainEnv) (st : MainState)
    (h : env.setNetworkLedOk = false) :
    (mainLoopIter env st).1 = none := by
  simp [mainLoopIter, h]

/-- Witness for network_led_failure_fatal on a concrete iteration. -/
theorem network_led_failure_fatal_witness :
    (mainLoopIter ⟨true, false, ⟨0, 0⟩, false, ⟨0, 0⟩⟩ ⟨false, false, false, ⟨0, 0⟩⟩).1 = none :=
  network_led_failure_fatal ⟨true, false, ⟨0, 0⟩, false, ⟨0, 0⟩⟩
    ⟨false, false, false, ⟨0, 0⟩⟩ rfl

/-- Claim C8 (counterexample): the timer handler discards the result of the
traffic-indicator set-color call: with that call failing, the handler result
is identical to the success case and no termination is requested, so a failed
traffic set-color does not terminate the loop. -/
theorem traffic_led_failure_ignored :
    UltrasonicTimerEventHandler true false true false 10 =
      UltrasonicTimerEventHandler true true true false 10
    ∧ (UltrasonicTimerEventHandler true false true false 10).terminationRequired = false := by
  decide

/-- Claim C9: for normalized time intervals, subtraction yields a normalized
sub-second component and adding the subtrahend back recovers the minuend
exactly. -/
theorem timer_subtract_roundtrip (a b : Timespec) (ha : a.normalized) (hb : b.normalized) :
    (TimerUtility_TimerSubtract a b).normalized ∧
    TimerUtility_TimerAdd (TimerUtility_TimerSubtract a b) b = a :=
  timer_sub_add_round a b ha hb

/-- Witness for timer_subtract_roundtrip at (5, 7) and (3, 9). -/
theorem timer_subtract_roundtrip_witness :
    (TimerUtility_TimerSubtract ⟨5, 7⟩ ⟨3, 9⟩).normalized ∧
    TimerUtility_TimerAdd (TimerUtility_TimerSubtract ⟨5, 7⟩ ⟨3, 9⟩) ⟨3, 9⟩ = ⟨5, 7⟩ :=
  timer_subtract_roundtrip ⟨5, 7⟩ ⟨3, 9⟩ (by decide) (by decide)

/-- Claim C10: the sentinel values go through the ordinary thresholds: the
unavailable sentinel -1 classifies as occupied with the traffic indicator Red
and can itself trigger an occupied report, while the timeout sentinel 400
classifies as clear with the indicator Green and can trigger a vacated
report; and the unavailable sentinel is indeed what a failed acquisition
produces. -/
theorem sentinels_classified_normally :
    classifyTier (-1) = (true, Colors.Red)
    ∧ classifyTier 400 = (false, Colors.Green)
    ∧ UltrasonicTimerEventHandler true true true false (-1) =
        ⟨true, false, ReportOutcome.sent true, some Colors.Red⟩
    ∧ UltrasonicTimerEventHandler true true true true 400 =
        ⟨false, false, ReportOutcome.sent false, some Colors.Green⟩
    ∧ GetUltrasonicReading ⟨false, true, fun _ => false, fun _ => ⟨2, 0⟩⟩ = -1 :=
  ⟨by decide, by decide, by decide, by decide, rfl⟩
